import Mathlib

/-!
Shallow embedding of the session and chat-synchronization core of the
repository: the authentication context (startup recovery, login, logout,
from src/unnamed/part_000, an AuthContext module) and the chat context
(fetchHistory, sendMessage, clearChat, and the logout-reset effect, from
src/src/contexts/ChatContext.tsx).  Network calls and the JavaScript
timer are modelled by passing their outcomes as explicit arguments;
component state is passed explicitly and every operation returns the new
state.  Timestamps (new Date().toISOString()) are passed in as opaque
strings, one per call site that reads the clock.
-/

/-- A backend history item, the element type of the GET /chat_history/
response (interface ApiResponse in ChatContext.tsx). -/
structure ApiResponse where
  id : Nat
  question : String
  answer : String
  user_id : String
  created_at : String
  updated_at : Option String
deriving DecidableEq, Repr

/-- One transcript entry (interface ChatMessage in ChatContext.tsx).
Optional fields model properties that are absent on ephemeral local
entries; `updated_at` is optional and nullable in the source, hence
`Option (Option String)`. -/
structure ChatMessage where
  id : Option Nat
  question : String
  answer : String
  user_id : Option String
  created_at : Option String
  updated_at : Option (Option String)
  isUser : Bool
deriving DecidableEq, Repr

/-- The chat synchronizer's state: the three useState cells of
ChatProvider (messages, isLoading, historyFetched). -/
structure ChatState where
  messages : List ChatMessage
  isLoading : Bool
  historyFetched : Bool
deriving DecidableEq, Repr

/-- ChatProvider's initial state: `useState([])`, `useState(false)`,
`useState(false)`. -/
def initialChatState : ChatState :=
  { messages := [], isLoading := false, historyFetched := false }

/-- The user-side entry built from one history item in fetchHistory:
`isUser=true`, the question shown in both text fields
(`answer: item.question` in the source). -/
def historyUserEntry (item : ApiResponse) : ChatMessage :=
  { id := some item.id
    question := item.question
    answer := item.question
    user_id := some item.user_id
    created_at := some item.created_at
    updated_at := some item.updated_at
    isUser := true }

/-- The bot-side entry built from one history item in fetchHistory:
`isUser=false`, carrying the item's answer text. -/
def historyBotEntry (item : ApiResponse) : ChatMessage :=
  { id := some item.id
    question := item.question
    answer := item.answer
    user_id := some item.user_id
    created_at := some item.created_at
    updated_at := some item.updated_at
    isUser := false }

/-- `history.sort((a, b) => a.id - b.id)`: a stable ascending sort on
`id` (Array.prototype.sort is stable). -/
def sortById (history : List ApiResponse) : List ApiResponse :=
  history.insertionSort (fun a b => a.id ≤ b.id)

/-- The `.sort(...).flatMap(...)` pipeline of fetchHistory: each item
expands into its user entry followed by its bot entry, in ascending id
order. -/
def formatHistory (history : List ApiResponse) : List ChatMessage :=
  (sortById history).flatMap (fun item => [historyUserEntry item, historyBotEntry item])

/-- Projection of a transcript entry onto the fields the history-pairing
property speaks about: side tag, question text, answer text. -/
def chatEntryView (m : ChatMessage) : Bool × String × String :=
  (m.isUser, m.question, m.answer)

instance : IsTotal ApiResponse (fun a b => a.id ≤ b.id) :=
  ⟨fun a b => Nat.le_total a.id b.id⟩

instance : IsTrans ApiResponse (fun a b => a.id ≤ b.id) :=
  ⟨fun _ _ _ hab hbc => Nat.le_trans hab hbc⟩

/-- fetchHistory, as a state transition.  The backend outcome of
`getChatHistory(token)` is the `backend` argument (`Except` error
message or item list).  Returns the new state and whether the network
retrieval was performed.  Guard, success branch, catch branch and the
`finally { setIsLoading(false) }` follow ChatContext.tsx lines 60-103:
on success the transcript is replaced wholesale by the formatted
history, on failure by the empty list; both set historyFetched. -/
def fetchHistory (token : Option String) (backend : Except String (List ApiResponse))
    (s : ChatState) : ChatState × Bool :=
  if token = none ∨ s.historyFetched then (s, false)
  else
    match backend with
    | .ok history =>
        ({ messages := formatHistory history, isLoading := false, historyFetched := true }, true)
    | .error _ =>
        ({ messages := [], isLoading := false, historyFetched := true }, true)

/-- A sequence of fetchHistory calls with a fixed token, each observing
the backend outcome listed for it; returns the final state and how many
calls performed the network retrieval. -/
def fetchHistoryCalls (token : Option String)
    (backends : List (Except String (List ApiResponse))) (s : ChatState) : ChatState × Nat :=
  match backends with
  | [] => (s, 0)
  | b :: rest =>
      let r := fetchHistory token b s
      let t := fetchHistoryCalls token rest r.1
      (t.1, (if r.2 then 1 else 0) + t.2)

/-- `clearChat`: synchronously empties the transcript; touches nothing
else. -/
def clearChat (s : ChatState) : ChatState :=
  { s with messages := [] }

/-- The fixed placeholder notice appended when the 60-second timeout
wins the race in sendMessage. -/
def timeoutNoticeText : String :=
  "The response is taking longer than expected. Please wait while I process your request..."

/-- The fixed apologetic notice appended (or substituted) when the
backend request fails. -/
def failureNoticeText : String :=
  "I'm sorry, I'm currently unable to process your request. Please try again later."

/-- The response shape of GET /rag_query/ as consumed by sendMessage
(interface ChatResponse in ChatContext.tsx lines 45-52). -/
structure ChatResponse where
  id : Option Nat
  question : String
  answer : String
  user_id : Option String
  created_at : Option String
  updated_at : Option (Option String)
deriving DecidableEq, Repr

/-- JavaScript `v || dflt` on an optional string: undefined and the
empty string are falsy. -/
def jsStringOr (v : Option String) (dflt : String) : String :=
  match v with
  | some s => if s = "" then dflt else s
  | none => dflt

/-- The optimistic user entry appended first by sendMessage: the sent
text in both question and answer fields, `isUser=true`, client
timestamp. -/
def mkUserMessage (message now : String) : ChatMessage :=
  { id := none, question := message, answer := message, user_id := none,
    created_at := some now, updated_at := none, isUser := true }

/-- The bot entry built from a backend response in sendMessage:
server-provided id and updated_at are kept, `created_at` defaults to the
client clock when the server omitted it (`response.created_at || new
Date().toISOString()`). -/
def mkBotMessage (message now : String) (r : ChatResponse) : ChatMessage :=
  { id := r.id, question := message, answer := r.answer, user_id := r.user_id,
    created_at := some (jsStringOr r.created_at now), updated_at := r.updated_at,
    isUser := false }

/-- The placeholder bot entry appended when the timeout wins the race. -/
def mkTimeoutMessage (message now : String) : ChatMessage :=
  { id := none, question := message, answer := timeoutNoticeText, user_id := none,
    created_at := some now, updated_at := none, isUser := false }

/-- The fixed failure bot entry. -/
def mkFailureMessage (message now : String) : ChatMessage :=
  { id := none, question := message, answer := failureNoticeText, user_id := none,
    created_at := some now, updated_at := none, isUser := false }

/-- The in-place substitution run when the background continuation after
a timeout settles: `prev.map(msg => msg.answer === timeoutMessage.answer
? replacement : msg)`. -/
def replaceTimeoutPlaceholder (replacement : ChatMessage) (msgs : List ChatMessage) :
    List ChatMessage :=
  msgs.map (fun m => if m.answer = timeoutNoticeText then replacement else m)

/-- How the race of `sendChatMessage` against the 60-second timer, plus
the background continuation, settles for one sendMessage call: the
backend replies first, the backend fails first (a non-timeout error), or
the timer fires first and the still-running backend call later settles
(`some` response or `none` for a failure). -/
inductive SendOutcome where
  | reply (r : ChatResponse)
  | fail
  | timeoutThen (bg : Option ChatResponse)
deriving DecidableEq, Repr

/-- The message substituted for the placeholder when the background
continuation settles: the real bot entry on success (inner `try`), the
fixed failure entry on failure (inner `catch`). -/
def sendReplacement (message tBg : String) (bg : Option ChatResponse) : ChatMessage :=
  match bg with
  | some r => mkBotMessage message tBg r
  | none => mkFailureMessage message tBg

/-- The state trajectory of one sendMessage call (ChatContext.tsx lines
105-186), one snapshot per state mutation, in program order: append the
optimistic user entry (clock `tSend`), raise the loading flag, then per
outcome: append the bot/failure entry (clock `tFirst`) and drop the
loading flag in `finally`; or, when the timeout wins, append the
placeholder (clock `tFirst`), substitute in place when the background
call settles (clock `tBg`), and only then reach the `finally` that drops
the loading flag. -/
def sendMessageTrace (message tSend tFirst tBg : String) (outcome : SendOutcome)
    (s0 : ChatState) : List ChatState :=
  let s1 := { s0 with messages := s0.messages ++ [mkUserMessage message tSend] }
  let s2 := { s1 with isLoading := true }
  match outcome with
  | .reply r =>
      let s3 := { s2 with messages := s2.messages ++ [mkBotMessage message tFirst r] }
      [s1, s2, s3, { s3 with isLoading := false }]
  | .fail =>
      let s3 := { s2 with messages := s2.messages ++ [mkFailureMessage message tFirst] }
      [s1, s2, s3, { s3 with isLoading := false }]
  | .timeoutThen bg =>
      let s3 := { s2 with messages := s2.messages ++ [mkTimeoutMessage message tFirst] }
      let s4 := { s3 with
        messages := replaceTimeoutPlaceholder (sendReplacement message tBg bg) s3.messages }
      [s1, s2, s3, s4, { s4 with isLoading := false }]

/-- The decoded identity payload of the bearer token (interface User in
the AuthContext module): email, username and `exp` in seconds since
epoch. -/
structure AuthUser where
  email : String
  username : String
  exp : Nat
deriving DecidableEq, Repr

/-- The session manager's state: the four useState cells of AuthProvider
(user, token, isLoading, error). -/
structure AuthState where
  user : Option AuthUser
  token : Option String
  isLoading : Bool
  error : Option String
deriving DecidableEq, Repr

/-- AuthProvider's initial state: no user, no token, `isLoading` starts
true (it is dropped at the end of the mount effect), no error. -/
def initialAuthState : AuthState :=
  { user := none, token := none, isLoading := true, error := none }

/-- The session-scoped browser storage visible to the core: the single
value stored under the well-known key (`sessionStorage`, key `token`). -/
structure Storage where
  token : Option String
deriving DecidableEq, Repr

/-- Startup recovery: the mount effect of AuthProvider (part_000 lines
238-256).  `decode` stands for `jwtDecode` (`none` models a decode that
throws), `now` is `Date.now()` in epoch milliseconds.  Purely local: the
function takes no transport argument, so no network call can occur.
Returns the state after the effect and the storage after any purge. -/
def startupRecovery (decode : String → Option AuthUser) (now : Nat) (st : Storage) :
    AuthState × Storage :=
  match st.token with
  | none => ({ initialAuthState with isLoading := false }, st)
  | some savedToken =>
      match decode savedToken with
      | some decoded =>
          if decoded.exp * 1000 > now then
            ({ user := some decoded, token := some savedToken,
               isLoading := false, error := none }, st)
          else
            ({ initialAuthState with isLoading := false }, { token := none })
      | none => ({ initialAuthState with isLoading := false }, { token := none })

/-- The logout-reset effect of ChatProvider (`useEffect` on `user`,
ChatContext.tsx lines 199-204): when no identity is present, clear the
transcript and drop the history-fetched flag. -/
def chatResetOnUser (user : Option AuthUser) (s : ChatState) : ChatState :=
  if user = none then { s with messages := [], historyFetched := false } else s

/-- Substring containment on character lists, the model of JavaScript
`String.prototype.includes`. -/
def charsInclude (needle : List Char) : List Char → Bool
  | [] => needle.isEmpty
  | c :: rest => needle.isPrefixOf (c :: rest) || charsInclude needle rest

/-- `hay.includes(needle)` on strings. -/
def strIncludes (hay needle : String) : Bool :=
  charsInclude needle.data hay.data

/-- The error classification of the catch block of `login` (part_000
lines 283-293): substring tests on the thrown error's message, in source
order; `base` is the configured `VITE_API_BASE_URL`, interpolated into
the connectivity message. -/
def classifyLoginError (message base : String) : String :=
  if strIncludes message "Network Error" || strIncludes message "ERR_NETWORK" then
    "Cannot connect to server. Please ensure the backend API is running at " ++ base
  else if strIncludes message "401" || strIncludes message "Unauthorized" then
    "Invalid credentials. Please check your email and password."
  else if strIncludes message "timeout" then
    "Request timeout. Please check your internet connection and try again."
  else
    "Login failed: " ++ message

/-- How the `loginUser` transport call settles: resolved with an
access token, rejected with a JavaScript Error carrying a message, or
rejected with a non-Error value. -/
inductive TransportResult where
  | ok (access_token : String)
  | errMsg (message : String)
  | errOther
deriving DecidableEq, Repr

/-- `login(email, password)` (part_000 lines 258-302) as a state
transition.  `base` is the configured backend address (`none` when the
environment variable is unset), `transport` the outcome of `loginUser`,
and `decode` stands for `jwtDecode` on the returned token (`Except`:
error carries the thrown Error's message, as produced by the jwt
library).  Returns the boolean result, the new auth state and the new
storage: the function is total, so `login` never throws.  On the success
path the token is stored and the decoded identity set; every failure
path leaves user, token and storage untouched and only sets the error
field (the `finally` drops `isLoading` on all paths). -/
def login (base : Option String) (transport : TransportResult)
    (decode : String → Except String AuthUser) (s : AuthState) (st : Storage) :
    Bool × AuthState × Storage :=
  let s := { s with isLoading := true, error := none }
  let failWith (msg : String) : Bool × AuthState × Storage :=
    (false, { s with isLoading := false, error := some msg }, st)
  match base with
  | none => failWith "API configuration missing. Please check your .env file."
  | some b =>
      match transport with
      | .ok access_token =>
          match decode access_token with
          | .ok decoded =>
              let s2 := { s with token := some access_token, user := some decoded, isLoading := false }
              (true, s2, { token := some access_token })
          | .error m => failWith (classifyLoginError m b)
      | .errMsg m => failWith (classifyLoginError m b)
      | .errOther => failWith "An unexpected error occurred during login."

/-- `logout()` (part_000 lines 304-309): synchronously clears user,
token and error and removes the stored token.  It takes no transport
argument: no network call can occur, and nothing else of the state is
touched. -/
def logout (s : AuthState) (_st : Storage) : AuthState × Storage :=
  ({ s with user := none, token := none, error := none }, { token := none })

theorem flatMap_pair_length {α β : Type} (f g : α → β) (l : List α) :
    (l.flatMap fun a => [f a, g a]).length = 2 * l.length := by
  induction l with
  | nil => simp
  | cons a t ih => simp [List.flatMap_cons, ih]; omega

theorem flatMap_pair_getElem {α β : Type} (f g : α → β) :
    ∀ (l : List α) (i : Nat) (h : i < l.length),
      (l.flatMap fun a => [f a, g a])[2 * i]? = some (f l[i]) ∧
      (l.flatMap fun a => [f a, g a])[2 * i + 1]? = some (g l[i])
  | a :: t, 0, _ => by simp
  | a :: t, i + 1, h => by
    have ih := flatMap_pair_getElem f g t i (by simpa using h)
    have h2 : 2 * (i + 1) = 2 * i + 2 := by ring
    simp only [List.flatMap_cons, List.cons_append, h2]
    simpa using ih


theorem sortById_perm (history : List ApiResponse) : (sortById history).Perm history :=
  List.perm_insertionSort _ history

theorem sortById_sorted (history : List ApiResponse) :
    (sortById history).Sorted (fun a b => a.id ≤ b.id) :=
  List.sorted_insertionSort _ history


/-- C1: after a successful fetchHistory (credential held, flag not yet
set) the transcript is replaced wholesale by the history items sorted in
ascending id order, each item expanded into exactly two consecutive
entries — first a user-side entry carrying the item's question text,
then a bot-side entry carrying the item's answer text; in particular the
two-item example yields exactly the four expected entries regardless of
the input order. -/
theorem fetchHistory_pairing (t : String) (s : ChatState) (history : List ApiResponse)
    (hflag : s.historyFetched = false) :
    (fetchHistory (some t) (Except.ok history) s).1.messages = formatHistory history
    ∧ (fetchHistory (some t) (Except.ok history) s).1.historyFetched = true
    ∧ (sortById history).Perm history
    ∧ (sortById history).Sorted (fun a b => a.id ≤ b.id)
    ∧ (fetchHistory (some t) (Except.ok history) s).1.messages.length = 2 * history.length
    ∧ (∀ i, (h : i < (sortById history).length) →
        (fetchHistory (some t) (Except.ok history) s).1.messages[2 * i]? =
          some (historyUserEntry (sortById history)[i])
        ∧ (fetchHistory (some t) (Except.ok history) s).1.messages[2 * i + 1]? =
          some (historyBotEntry (sortById history)[i]))
    ∧ (∀ item : ApiResponse,
        (historyUserEntry item).isUser = true ∧ (historyUserEntry item).question = item.question
        ∧ (historyBotEntry item).isUser = false ∧ (historyBotEntry item).answer = item.answer)
    ∧ ((formatHistory [⟨1, "A", "B", "u", "t1", none⟩, ⟨3, "C", "D", "u", "t3", none⟩]).map chatEntryView =
        [(true, "A", "A"), (false, "A", "B"), (true, "C", "C"), (false, "C", "D")])
    ∧ ((formatHistory [⟨3, "C", "D", "u", "t3", none⟩, ⟨1, "A", "B", "u", "t1", none⟩]).map chatEntryView =
        [(true, "A", "A"), (false, "A", "B"), (true, "C", "C"), (false, "C", "D")]) := by
  have hmsg : (fetchHistory (some t) (Except.ok history) s).1.messages = formatHistory history := by
    simp [fetchHistory, hflag]
  refine ⟨hmsg, by simp [fetchHistory, hflag], sortById_perm history, sortById_sorted history,
    ?_, ?_, ?_, by decide, by decide⟩
  · rw [hmsg, formatHistory, flatMap_pair_length]
    exact congrArg (2 * ·) (sortById_perm history).length_eq
  · intro i h
    rw [hmsg, formatHistory]
    exact flatMap_pair_getElem historyUserEntry historyBotEntry (sortById history) i h
  · intro item
    exact ⟨rfl, rfl, rfl, rfl⟩

theorem fetchHistory_pairing_witness :
    (fetchHistory (some "tok") (Except.ok [⟨3, "C", "D", "u", "t3", none⟩, ⟨1, "A", "B", "u", "t1", none⟩])
        initialChatState).1.messages.map chatEntryView =
      [(true, "A", "A"), (false, "A", "B"), (true, "C", "C"), (false, "C", "D")] := by
  have h := fetchHistory_pairing "tok" initialChatState
    [⟨3, "C", "D", "u", "t3", none⟩, ⟨1, "A", "B", "u", "t1", none⟩] rfl
  rw [h.1]
  exact h.2.2.2.2.2.2.2.2

/-- C2: startup recovery discards the stored credential and ends logged
out (state cleared, storage purged) when the stored token fails to
decode or its decoded expiry in epoch milliseconds is not in the future;
when it decodes with the expiry in the future, recovery ends logged in
with that credential and its decoded identity and the storage untouched.
`startupRecovery` takes no transport argument, so no network call occurs
in either case. -/
theorem startupRecovery_expiry (decode : String → Option AuthUser) (now : Nat) (st : Storage) :
    (∀ tk, st.token = some tk → decode tk = none →
      startupRecovery decode now st =
        ({ user := none, token := none, isLoading := false, error := none }, { token := none }))
    ∧ (∀ tk u, st.token = some tk → decode tk = some u → u.exp * 1000 ≤ now →
      startupRecovery decode now st =
        ({ user := none, token := none, isLoading := false, error := none }, { token := none }))
    ∧ (∀ tk u, st.token = some tk → decode tk = some u → u.exp * 1000 > now →
      startupRecovery decode now st =
        ({ user := some u, token := some tk, isLoading := false, error := none }, st)) := by
  refine ⟨?_, ?_, ?_⟩
  · intro tk hst hdec
    simp [startupRecovery, hst, hdec, initialAuthState]
  · intro tk u hst hdec hexp
    simp [startupRecovery, hst, hdec, initialAuthState, Nat.not_lt.mpr hexp]
  · intro tk u hst hdec hexp
    simp [startupRecovery, hst, hdec, hexp]

theorem startupRecovery_expiry_witness :
    (startupRecovery (fun _ => some ⟨"e", "u", 1⟩) 5000 ⟨some "tok"⟩ =
      ({ user := none, token := none, isLoading := false, error := none }, { token := none }))
    ∧ (startupRecovery (fun _ => some ⟨"e", "u", 10⟩) 5000 ⟨some "tok"⟩ =
      ({ user := some ⟨"e", "u", 10⟩, token := some "tok", isLoading := false, error := none },
        ⟨some "tok"⟩)) :=
  ⟨(startupRecovery_expiry (fun _ => some ⟨"e", "u", 1⟩) 5000 ⟨some "tok"⟩).2.1 "tok"
      ⟨"e", "u", 1⟩ rfl rfl (by decide),
   (startupRecovery_expiry (fun _ => some ⟨"e", "u", 10⟩) 5000 ⟨some "tok"⟩).2.2 "tok"
      ⟨"e", "u", 10⟩ rfl rfl (by decide)⟩

/-- C6: when the history request fails (credential held, flag not yet
set), the transcript is replaced with the empty sequence, the
history-fetched flag is set, the loading indicator ends cleared, the
retrieval was attempted — and any subsequent call is a no-op, so the
failure is not retried automatically. -/
theorem fetchHistory_failure (t err : String) (s : ChatState)
    (hflag : s.historyFetched = false) :
    (fetchHistory (some t) (Except.error err) s).1.messages = []
    ∧ (fetchHistory (some t) (Except.error err) s).1.historyFetched = true
    ∧ (fetchHistory (some t) (Except.error err) s).1.isLoading = false
    ∧ (fetchHistory (some t) (Except.error err) s).2 = true
    ∧ (∀ backend, fetchHistory (some t) backend (fetchHistory (some t) (Except.error err) s).1 =
        ((fetchHistory (some t) (Except.error err) s).1, false)) := by
  refine ⟨by simp [fetchHistory, hflag], by simp [fetchHistory, hflag],
    by simp [fetchHistory, hflag], by simp [fetchHistory, hflag], ?_⟩
  intro backend
  simp [fetchHistory, hflag]

theorem fetchHistory_failure_witness :
    (fetchHistory (some "tok") (Except.error "boom") initialChatState).1.messages = []
    ∧ (fetchHistory (some "tok") (Except.error "boom") initialChatState).1.historyFetched = true :=
  ⟨(fetchHistory_failure "tok" "boom" initialChatState rfl).1,
   (fetchHistory_failure "tok" "boom" initialChatState rfl).2.1⟩

theorem fetchHistoryCalls_of_fetched (token : Option String)
    (backends : List (Except String (List ApiResponse))) (s : ChatState)
    (hflag : s.historyFetched = true) : fetchHistoryCalls token backends s = (s, 0) := by
  induction backends with
  | nil => rfl
  | cons b rest ih =>
      simp [fetchHistoryCalls, fetchHistory, hflag, ih]

theorem fetchHistory_noop_of_fetched (token : Option String)
    (b : Except String (List ApiResponse)) (s : ChatState)
    (h : s.historyFetched = true) : fetchHistory token b s = (s, false) := by
  simp [fetchHistory, h]

theorem fetchHistory_flag_of_fetch (token : Option String)
    (b : Except String (List ApiResponse)) (s : ChatState)
    (h : (fetchHistory token b s).2 = true) :
    (fetchHistory token b s).1.historyFetched = true := by
  by_cases hg : token = none ∨ s.historyFetched = true
  · simp [fetchHistory, hg] at h
  · cases b <;> simp [fetchHistory, hg]

theorem fetchHistory_of_no_fetch (token : Option String)
    (b : Except String (List ApiResponse)) (s : ChatState)
    (h : (fetchHistory token b s).2 = false) : fetchHistory token b s = (s, false) := by
  by_cases hg : token = none ∨ s.historyFetched = true
  · simp [fetchHistory, hg]
  · cases b <;> simp [fetchHistory, hg] at h

/-- C7: fetchHistory with an unchanged credential performs the network
retrieval at most once: a call with no credential held or with the
history-fetched flag already set is a no-op leaving the state untouched,
a second call right after any first call is such a no-op, and over any
sequence of calls the number of performed retrievals is at most one. -/
theorem fetchHistory_at_most_once (token : Option String)
    (b1 b2 : Except String (List ApiResponse))
    (backends : List (Except String (List ApiResponse))) (s : ChatState) :
    (token = none → fetchHistory token b1 s = (s, false))
    ∧ (s.historyFetched = true → fetchHistory token b1 s = (s, false))
    ∧ fetchHistory token b2 (fetchHistory token b1 s).1 = ((fetchHistory token b1 s).1, false)
    ∧ (fetchHistoryCalls token backends s).2 ≤ 1 := by
  refine ⟨?_, ?_, ?_, ?_⟩
  · intro h; simp [fetchHistory, h]
  · intro h; simp [fetchHistory, h]
  · by_cases htok : token = none
    · simp [fetchHistory, htok]
    · by_cases hflag : s.historyFetched = true
      · rw [fetchHistory_noop_of_fetched token b1 s hflag]
        exact fetchHistory_noop_of_fetched token b2 s hflag
      · have h1 : (fetchHistory token b1 s).1.historyFetched = true := by
          cases b1 <;> simp [fetchHistory, htok, hflag]
        exact fetchHistory_noop_of_fetched token b2 _ h1
  · induction backends generalizing s with
    | nil => simp [fetchHistoryCalls]
    | cons b rest ih =>
        by_cases hfetch : (fetchHistory token b s).2 = true
        · have h1 := fetchHistory_flag_of_fetch token b s hfetch
          simp [fetchHistoryCalls, hfetch,
            fetchHistoryCalls_of_fetched token rest _ h1]
        · have h0 : (fetchHistory token b s).2 = false := by
            simpa using hfetch
          have h1 := fetchHistory_of_no_fetch token b s h0
          simp [fetchHistoryCalls, h1]
          exact ih s

theorem fetchHistory_at_most_once_witness :
    fetchHistory none (Except.error "e") initialChatState = (initialChatState, false)
    ∧ (fetchHistoryCalls (some "tok") [Except.ok [], Except.ok [], Except.error "e"]
        initialChatState).2 ≤ 1 :=
  ⟨(fetchHistory_at_most_once none (Except.error "e") (Except.error "e") [] initialChatState).1 rfl,
   (fetchHistory_at_most_once (some "tok") (Except.ok []) (Except.ok [])
      [Except.ok [], Except.ok [], Except.error "e"] initialChatState).2.2.2⟩

/-- C9: logout unconditionally clears the credential, identity, error
field and the stored session-storage credential, touching nothing else
(`logout` takes no transport argument, so no network call occurs), and
the resulting absence of an identity makes the chat reset effect yield
an empty transcript with the history-fetched flag false, leaving the
chat loading indicator as it was. -/
theorem logout_reset (s : AuthState) (st : Storage) (c : ChatState) :
    (logout s st).1.user = none
    ∧ (logout s st).1.token = none
    ∧ (logout s st).1.error = none
    ∧ (logout s st).2.token = none
    ∧ (logout s st).1.isLoading = s.isLoading
    ∧ chatResetOnUser (logout s st).1.user c = { c with messages := [], historyFetched := false }
    ∧ (chatResetOnUser (logout s st).1.user c).messages = []
    ∧ (chatResetOnUser (logout s st).1.user c).historyFetched = false
    ∧ (chatResetOnUser (logout s st).1.user c).isLoading = c.isLoading := by
  refine ⟨rfl, rfl, rfl, rfl, rfl, ?_, ?_, ?_, ?_⟩ <;> simp [logout, chatResetOnUser]

/-- C3, counterexample: a decode failure of the returned token is NOT
treated identically to an authentication error — the jwt library's
decode error message lands in the generic branch and produces the
generic notice, while an authentication (401) failure produces the
invalid-credentials notice, and the two notices differ. -/
theorem login_decode_error_not_auth_error :
    (login (some "http://b") (.ok "bad")
        (fun _ => .error "Invalid token specified: missing part #2 in token")
        initialAuthState ⟨none⟩).2.1.error =
      some "Login failed: Invalid token specified: missing part #2 in token"
    ∧ (login (some "http://b") (.errMsg "Request failed with status code 401")
        (fun _ => .error "x") initialAuthState ⟨none⟩).2.1.error =
      some "Invalid credentials. Please check your email and password."
    ∧ "Login failed: Invalid token specified: missing part #2 in token" ≠
      "Invalid credentials. Please check your email and password." := by
  refine ⟨by decide, by decide, by decide⟩

/-- C3, amended: login is a total function returning a boolean, so it
never throws; on every failure it returns false, sets a human-readable
error classified by cause (configuration, transport error message,
non-Error rejection — with a decode failure classified through the same
message classifier as a transport error, falling into the generic
branch), does not change the held user or token, stores nothing, and
ends with the loading flag down. -/
theorem login_failure_behaviour (base : Option String) (transport : TransportResult)
    (decode : String → Except String AuthUser) (s : AuthState) (st : Storage) :
    ((login base transport decode s st).1 = false →
      (login base transport decode s st).2.1.error ≠ none
      ∧ (login base transport decode s st).2.1.token = s.token
      ∧ (login base transport decode s st).2.1.user = s.user
      ∧ (login base transport decode s st).2.2 = st)
    ∧ (base = none → (login base transport decode s st).1 = false
        ∧ (login base transport decode s st).2.1.error =
          some "API configuration missing. Please check your .env file.")
    ∧ (∀ b m, base = some b → transport = .errMsg m →
        (login base transport decode s st).1 = false
        ∧ (login base transport decode s st).2.1.error = some (classifyLoginError m b))
    ∧ (∀ b tk m, base = some b → transport = .ok tk → decode tk = .error m →
        (login base transport decode s st).1 = false
        ∧ (login base transport decode s st).2.1.error = some (classifyLoginError m b))
    ∧ (∀ b, base = some b → transport = .errOther →
        (login base transport decode s st).1 = false
        ∧ (login base transport decode s st).2.1.error =
          some "An unexpected error occurred during login.")
    ∧ ((login base transport decode s st).1 = false →
        (login base transport decode s st).2.1.isLoading = false) := by
  cases base with
  | none => simp [login]
  | some b =>
      cases transport with
      | ok tk =>
          cases hd : decode tk with
          | ok u =>
              simp [login, hd]
              intro b2 tk2 m hb htk
              subst hb
              subst htk
              simp [hd]
          | error m =>
              simp [login, hd]
              intro b2 tk2 m2 hb htk hdec
              subst hb
              subst htk
              rw [hd] at hdec
              simp at hdec
              rw [hdec]
      | errMsg m => simp [login]
      | errOther => simp [login]

theorem login_failure_behaviour_witness :
    (login none .errOther (fun _ => .error "x") initialAuthState ⟨none⟩).1 = false
    ∧ (login none .errOther (fun _ => .error "x") initialAuthState ⟨none⟩).2.1.error =
      some "API configuration missing. Please check your .env file." :=
  (login_failure_behaviour none .errOther (fun _ => .error "x") initialAuthState ⟨none⟩).2.1 rfl

/-- C8, counterexample: login performs no expiry validation — with a
backend returning a token that decodes to an identity whose exp is 1
second, login succeeds and holds that credential although at any
validation instant past 1000 epoch milliseconds (for example 10^6) the
decoded expiry is not in the future. -/
theorem login_stores_expired_credential :
    (login (some "http://b") (.ok "tok") (fun _ => .ok ⟨"e", "u", 1⟩)
        initialAuthState ⟨none⟩).1 = true
    ∧ (login (some "http://b") (.ok "tok") (fun _ => .ok ⟨"e", "u", 1⟩)
        initialAuthState ⟨none⟩).2.1.token = some "tok"
    ∧ (login (some "http://b") (.ok "tok") (fun _ => .ok ⟨"e", "u", 1⟩)
        initialAuthState ⟨none⟩).2.1.user = some ⟨"e", "u", 1⟩
    ∧ 1 * 1000 ≤ 1000000 := by
  refine ⟨by decide, by decide, by decide, by decide⟩

/-- C8, amended: the expiry invariant holds for the credential
established by startup recovery (a held credential's exp in epoch
milliseconds is strictly greater than the validation time, and only the
stored token can be held); login validates only decodability — on a
token that decodes it succeeds and holds the decoded identity with no
comparison against any clock. -/
theorem credential_validation (decode : String → Option AuthUser) (now : Nat) (st : Storage) :
    (∀ u, (startupRecovery decode now st).1.user = some u → u.exp * 1000 > now)
    ∧ (∀ tk, (startupRecovery decode now st).1.token = some tk → st.token = some tk)
    ∧ (∀ b tk dec s st2 u, dec tk = Except.ok u →
        (login (some b) (.ok tk) dec s st2).1 = true
        ∧ (login (some b) (.ok tk) dec s st2).2.1.user = some u
        ∧ (login (some b) (.ok tk) dec s st2).2.1.token = some tk) := by
  refine ⟨?_, ?_, ?_⟩
  · intro u hu
    cases hst : st.token with
    | none => simp [startupRecovery, hst, initialAuthState] at hu
    | some tk =>
        cases hdec : decode tk with
        | none => simp [startupRecovery, hst, hdec, initialAuthState] at hu
        | some d =>
            by_cases hexp : d.exp * 1000 > now
            · simp [startupRecovery, hst, hdec, hexp, initialAuthState] at hu
              rw [← hu]
              exact hexp
            · simp [startupRecovery, hst, hdec, hexp, initialAuthState] at hu
  · intro tk htk
    cases hst : st.token with
    | none => simp [startupRecovery, hst, initialAuthState] at htk
    | some tk2 =>
        cases hdec : decode tk2 with
        | none => simp [startupRecovery, hst, hdec, initialAuthState] at htk
        | some d =>
            by_cases hexp : d.exp * 1000 > now
            · simp [startupRecovery, hst, hdec, hexp, initialAuthState] at htk
              subst htk
              rfl
            · simp [startupRecovery, hst, hdec, hexp, initialAuthState] at htk
  · intro b tk dec s st2 u hdec
    simp [login, hdec]

theorem credential_validation_witness :
    ((startupRecovery (fun _ => some ⟨"e", "u", 10⟩) 5000 ⟨some "tok"⟩).1.user =
        some ⟨"e", "u", 10⟩ → (10 : Nat) * 1000 > 5000)
    ∧ ((login (some "b") (.ok "tok") (fun _ => .ok ⟨"e", "u", 0⟩) initialAuthState ⟨none⟩).1 = true
        ∧ (login (some "b") (.ok "tok") (fun _ => .ok ⟨"e", "u", 0⟩)
            initialAuthState ⟨none⟩).2.1.user = some ⟨"e", "u", 0⟩
        ∧ (login (some "b") (.ok "tok") (fun _ => .ok ⟨"e", "u", 0⟩)
            initialAuthState ⟨none⟩).2.1.token = some "tok") :=
  ⟨(credential_validation (fun _ => some ⟨"e", "u", 10⟩) 5000 ⟨some "tok"⟩).1 ⟨"e", "u", 10⟩,
   (credential_validation (fun _ => none) 0 ⟨none⟩).2.2 "b" "tok"
      (fun _ => .ok ⟨"e", "u", 0⟩) initialAuthState ⟨none⟩ ⟨"e", "u", 0⟩ rfl⟩

/-- C5, counterexample: the loading indicator is NOT cleared at the
first settling event — in a timeout trace the snapshot right after the
placeholder append (the first race settlement fully handled) still has
the loading flag raised, as does the snapshot after the background
substitution, because the `finally` clearing the flag runs only after
the background continuation. -/
theorem sendMessage_loading_not_cleared_at_first_settlement :
    ((sendMessageTrace "q" "t0" "t1" "t2"
        (.timeoutThen (some ⟨none, "q", "Y", none, none, none⟩)) initialChatState)[2]?.map
        ChatState.isLoading = some true)
    ∧ ((sendMessageTrace "q" "t0" "t1" "t2"
        (.timeoutThen (some ⟨none, "q", "Y", none, none, none⟩)) initialChatState)[3]?.map
        ChatState.isLoading = some true)
    ∧ ((sendMessageTrace "q" "t0" "t1" "t2"
        (.timeoutThen (some ⟨none, "q", "Y", none, none, none⟩)) initialChatState)[2]?.map
        (fun st => st.messages.map ChatMessage.answer) =
        some ["q", timeoutNoticeText]) := by
  refine ⟨by decide, by decide, by decide⟩

/-- C5, amended: the loading indicator is raised right after the
optimistic append and cleared exactly once, at the last snapshot of the
call — in the non-timeout outcomes that is immediately after the race
settles, but in the timeout outcome the flag stays raised through the
placeholder phase and the whole background continuation and is cleared
only after the background request settles. -/
theorem sendMessage_loading_lifecycle (message tSend tFirst tBg : String)
    (outcome : SendOutcome) (s0 : ChatState) :
    (sendMessageTrace message tSend tFirst tBg outcome s0).getLast?.map ChatState.isLoading =
      some false
    ∧ (∀ i, 0 < i → i + 1 < (sendMessageTrace message tSend tFirst tBg outcome s0).length →
        (sendMessageTrace message tSend tFirst tBg outcome s0)[i]?.map ChatState.isLoading =
          some true)
    ∧ (sendMessageTrace message tSend tFirst tBg outcome s0)[0]?.map ChatState.isLoading =
      some s0.isLoading := by
  cases outcome with
  | reply r =>
      refine ⟨rfl, ?_, rfl⟩
      intro i h1 h2
      have h3 : i + 1 < 4 := by simpa [sendMessageTrace] using h2
      have h4 : i < 3 := by omega
      interval_cases i <;> rfl
  | fail =>
      refine ⟨rfl, ?_, rfl⟩
      intro i h1 h2
      have h3 : i + 1 < 4 := by simpa [sendMessageTrace] using h2
      have h4 : i < 3 := by omega
      interval_cases i <;> rfl
  | timeoutThen bg =>
      refine ⟨rfl, ?_, rfl⟩
      intro i h1 h2
      have h3 : i + 1 < 5 := by simpa [sendMessageTrace] using h2
      have h4 : i < 4 := by omega
      interval_cases i <;> rfl

theorem sendMessage_loading_lifecycle_witness :
    ((sendMessageTrace "q" "a" "b" "c" .fail initialChatState)[1]?.map ChatState.isLoading =
      some true)
    ∧ ((sendMessageTrace "q" "a" "b" "c" .fail initialChatState).getLast?.map
        ChatState.isLoading = some false) :=
  ⟨(sendMessage_loading_lifecycle "q" "a" "b" "c" .fail initialChatState).2.1 1
      (by decide) (by decide),
   (sendMessage_loading_lifecycle "q" "a" "b" "c" .fail initialChatState).1⟩

theorem replaceTimeoutPlaceholder_clean (repl : ChatMessage) (l : List ChatMessage)
    (h : ∀ m ∈ l, m.answer ≠ timeoutNoticeText) : replaceTimeoutPlaceholder repl l = l := by
  unfold replaceTimeoutPlaceholder
  rw [List.map_congr_left (g := id) (fun m hm => by simp [if_neg (h m hm)]), List.map_id]

/-- C4: for a single sendMessage call whose timeout fires first, at
settlement of the background request the transcript no longer contains
the taking-longer placeholder: the position that held the placeholder
(index length-of-prior-transcript + 1) holds the replacement in place —
the bot entry carrying the backend's answer on success, the fixed
apologetic failure entry on failure — with no re-append, matching done
by the placeholder's exact notice text (hypotheses: the prior
transcript, the sent text and the backend answer do not equal the notice
text). -/
theorem sendMessage_timeout_substitution (message tSend tFirst tBg : String)
    (bg : Option ChatResponse) (s0 : ChatState)
    (hclean : ∀ m ∈ s0.messages, m.answer ≠ timeoutNoticeText)
    (hmsg : message ≠ timeoutNoticeText)
    (hans : ∀ r, bg = some r → r.answer ≠ timeoutNoticeText) :
    ((sendMessageTrace message tSend tFirst tBg (.timeoutThen bg) s0)[2]?.map ChatState.messages =
      some (s0.messages ++ [mkUserMessage message tSend, mkTimeoutMessage message tFirst]))
    ∧ ((sendMessageTrace message tSend tFirst tBg (.timeoutThen bg) s0)[3]?.map ChatState.messages =
      some (s0.messages ++ [mkUserMessage message tSend, sendReplacement message tBg bg]))
    ∧ ((s0.messages ++ [mkUserMessage message tSend, sendReplacement message tBg bg])[s0.messages.length + 1]? =
      some (sendReplacement message tBg bg))
    ∧ (∀ m ∈ s0.messages ++ [mkUserMessage message tSend, sendReplacement message tBg bg],
        m.answer ≠ timeoutNoticeText)
    ∧ (∀ r, bg = some r →
        (sendReplacement message tBg bg).answer = r.answer
        ∧ (sendReplacement message tBg bg).isUser = false)
    ∧ (bg = none → sendReplacement message tBg bg = mkFailureMessage message tBg) := by
  have hrepl : (sendReplacement message tBg bg).answer ≠ timeoutNoticeText := by
    cases hbg : bg with
    | some r =>
        have := hans r hbg
        simpa [sendReplacement, mkBotMessage] using this
    | none =>
        simp only [sendReplacement, mkFailureMessage]
        decide
  have hsubst : replaceTimeoutPlaceholder (sendReplacement message tBg bg)
      (s0.messages ++ [mkUserMessage message tSend, mkTimeoutMessage message tFirst]) =
      s0.messages ++ [mkUserMessage message tSend, sendReplacement message tBg bg] := by
    unfold replaceTimeoutPlaceholder
    rw [List.map_append]
    rw [show (s0.messages.map fun m => if m.answer = timeoutNoticeText
        then sendReplacement message tBg bg else m) = s0.messages from
      replaceTimeoutPlaceholder_clean _ _ hclean]
    simp [mkUserMessage, mkTimeoutMessage, hmsg]
  refine ⟨by simp [sendMessageTrace], ?_, ?_, ?_, ?_, ?_⟩
  · simp [sendMessageTrace, hsubst]
  · rw [List.getElem?_append_right (by omega)]
    simp
  · intro m hm
    rcases List.mem_append.mp hm with h1 | h2
    · exact hclean m h1
    · simp only [List.mem_cons, List.not_mem_nil, or_false] at h2
      rcases h2 with h2 | h2
      · subst h2
        simpa [mkUserMessage] using hmsg
      · subst h2
        exact hrepl
  · intro r hbg
    subst hbg
    exact ⟨rfl, rfl⟩
  · intro hbg
    subst hbg
    rfl

theorem sendMessage_timeout_substitution_witness :
    ((sendMessageTrace "q" "t0" "t1" "t2"
        (.timeoutThen (some ⟨none, "q", "Y", none, none, none⟩)) initialChatState)[3]?.map
        ChatState.messages =
      some [mkUserMessage "q" "t0",
        sendReplacement "q" "t2" (some ⟨none, "q", "Y", none, none, none⟩)])
    ∧ (sendReplacement "q" "t2" (some ⟨none, "q", "Y", none, none, none⟩)).answer = "Y" :=
  ⟨(sendMessage_timeout_substitution "q" "t0" "t1" "t2"
      (some ⟨none, "q", "Y", none, none, none⟩) initialChatState
      (by intro m hm; simp [initialChatState] at hm)
      (by decide)
      (by
        intro r hr
        injection hr with h
        subst h
        decide)).2.1,
   ((sendMessage_timeout_substitution "q" "t0" "t1" "t2"
      (some ⟨none, "q", "Y", none, none, none⟩) initialChatState
      (by intro m hm; simp [initialChatState] at hm)
      (by decide)
      (by
        intro r hr
        injection hr with h
        subst h
        decide)).2.2.2.2.1 ⟨none, "q", "Y", none, none, none⟩ rfl).1⟩

/-- C10: the in-place substitution at background settlement is applied
to every transcript entry whose answer field equals the placeholder
notice text — not only the placeholder appended by this send: the
settled transcript is the entrywise image replacing each matching entry
(user entries included) by the same replacement message, preserving
length and all non-matching entries; the closed instance shows a
transcript with two matching entries, one of them user-side, both
replaced. -/
theorem sendMessage_replacement_global (message tSend tFirst tBg : String)
    (bg : Option ChatResponse) (s0 : ChatState) :
    ((sendMessageTrace message tSend tFirst tBg (.timeoutThen bg) s0)[3]?.map ChatState.messages =
      some (replaceTimeoutPlaceholder (sendReplacement message tBg bg)
        (s0.messages ++ [mkUserMessage message tSend, mkTimeoutMessage message tFirst])))
    ∧ (∀ (repl : ChatMessage) (l : List ChatMessage) (i : Nat),
        (replaceTimeoutPlaceholder repl l)[i]? =
          l[i]?.map (fun m => if m.answer = timeoutNoticeText then repl else m))
    ∧ (∀ (repl : ChatMessage) (l : List ChatMessage),
        (replaceTimeoutPlaceholder repl l).length = l.length)
    ∧ (replaceTimeoutPlaceholder (mkFailureMessage "m" "t")
        [⟨none, "a", timeoutNoticeText, none, none, none, true⟩,
         ⟨none, "b", "other", none, none, none, false⟩,
         ⟨none, "c", timeoutNoticeText, none, none, none, false⟩] =
        [mkFailureMessage "m" "t",
         ⟨none, "b", "other", none, none, none, false⟩,
         mkFailureMessage "m" "t"]) := by
  refine ⟨by simp [sendMessageTrace], ?_, ?_, by decide⟩
  · intro repl l i
    simp [replaceTimeoutPlaceholder, List.getElem?_map]
  · intro repl l
    simp [replaceTimeoutPlaceholder]
